import Mathlib

/-
Verification of the DH-link core of a robotics toolbox: the joint
parameter record, its validated setters, the link transform, the
friction model, limit checking, and the friction-zeroing operation.

Numeric scalars of the program are modelled as exact rationals for the
record fields and validation logic, and the trigonometric evaluation of
the transform engine is carried out over the reals.
-/

namespace DH

/-- The joint parameter record, mirroring the fields set up in the
constructor of the DHLink class: kinematic parameters (theta, d, alpha,
a, sigma, mdh, offset, qlim, flip) and dynamic parameters
(m, r, I, Jm, B, Tc, G).  sigma is 0 for a revolute joint and nonzero
for a prismatic joint; mdh is 0 for standard DH convention and nonzero
for modified. -/
structure DHLink where
  theta : ℚ
  d : ℚ
  alpha : ℚ
  a : ℚ
  sigma : ℕ
  mdh : ℕ
  offset : ℚ
  qlim : ℚ × ℚ
  flip : Bool
  m : ℚ
  r : Fin 3 → ℚ
  I : Fin 3 → Fin 3 → ℚ
  Jm : ℚ
  B : ℚ
  Tc : ℚ × ℚ
  G : ℚ

/-- The error kinds raised by the validated setters.  The source raises
ValueError or TypeError with distinguishing messages; the spec names the
same cases ConstraintViolation, ShapeError, SymmetryError and TypeError,
and we keep one constructor per raise site kind. -/
inductive SetError where
  | constraintViolation
  | shapeError
  | symmetryError
  | typeError
deriving DecidableEq

/-- DHLink.friction: tau = B * abs G * qd; when the coulomb flag is set,
add Tc+ for qd > 0 and Tc- for qd < 0; finally tau = -(abs G) * tau. -/
def friction (l : DHLink) (qd : ℚ) (coulomb : Bool) : ℚ :=
  let tau := l.B * |l.G| * qd
  let tau :=
    if coulomb then
      if qd > 0 then tau + l.Tc.1
      else if qd < 0 then tau + l.Tc.2
      else tau
    else tau
  let res := -|l.G| * tau
  res

/-- A record with all the default constructor arguments of DHLink:
d = 0, alpha = 0, theta = 0, a = 0, sigma = 0, mdh = 0, offset = 0,
qlim = zeros(2), flip = false, m = 0, r = zeros(3), I = zeros(3,3),
Jm = 0, B = 0, Tc = zeros(2), G = 1. -/
def defaultLink : DHLink :=
  { theta := 0, d := 0, alpha := 0, a := 0, sigma := 0, mdh := 0
    offset := 0, qlim := (0, 0), flip := false, m := 0
    r := fun _ => 0, I := fun _ _ => 0, Jm := 0, B := 0, Tc := (0, 0), G := 1 }

/-- The record of the friction example of the spec: viscous friction 2,
gear ratio -3, Coulomb friction pair (1, -1). -/
def frictionExample : DHLink :=
  { defaultLink with B := 2, G := -3, Tc := (1, -1) }

/-- C1: for every record and joint velocity qd, friction returns
-(abs G) * tau where tau is B * abs G * qd plus, when the Coulomb flag
is set, Tc+ if qd > 0 and Tc- if qd < 0 and nothing at qd = 0; in
particular for B = 2, G = -3, Tc = (1, -1), qd = 4 the result is -75. -/
theorem friction_formula :
    (∀ (l : DHLink) (qd : ℚ) (coulomb : Bool),
      friction l qd coulomb =
        -|l.G| * (l.B * |l.G| * qd +
          (if coulomb then
            (if qd > 0 then l.Tc.1 else if qd < 0 then l.Tc.2 else 0)
           else 0))) ∧
    friction frictionExample 4 true = -75 := by
  constructor
  · intro l qd coulomb
    unfold friction
    rcases lt_trichotomy qd 0 with h | h | h
    · cases coulomb <;> simp [h, lt_asymm h]
    · subst h; cases coulomb <;> simp
    · cases coulomb <;> simp [h, lt_asymm h]
  · norm_num [friction, frictionExample, defaultLink]

/-- DHLink.A: the link transform matrix.  sa, ca are sine and cosine of
alpha; the joint variable is negated when flip is set and the offset is
added; a revolute joint (sigma = 0) takes st, ct from the adjusted joint
variable and d from the record, a prismatic joint takes st, ct from
theta and d from the adjusted variable; the 4x4 matrix is then built by
the standard DH formula when mdh = 0 and the modified one otherwise. -/
noncomputable def A (l : DHLink) (q : ℚ) : Fin 4 → Fin 4 → ℝ :=
  let sa := Real.sin (l.alpha : ℝ)
  let ca := Real.cos (l.alpha : ℝ)
  let q' : ℚ := if l.flip then -q + l.offset else q + l.offset
  let st := if l.sigma = 0 then Real.sin (q' : ℝ) else Real.sin (l.theta : ℝ)
  let ct := if l.sigma = 0 then Real.cos (q' : ℝ) else Real.cos (l.theta : ℝ)
  let dd := if l.sigma = 0 then (l.d : ℝ) else (q' : ℝ)
  if l.mdh = 0 then
    ![![ct, -st * ca, st * sa, (l.a : ℝ) * ct],
      ![st, ct * ca, -ct * sa, (l.a : ℝ) * st],
      ![0, sa, ca, dd],
      ![0, 0, 0, 1]]
  else
    ![![ct, -st, 0, (l.a : ℝ)],
      ![st * ca, ct * ca, -sa, -sa * dd],
      ![st * sa, ct * sa, ca, ca * dd],
      ![0, 0, 0, 1]]

/-- The standard prismatic record of the transform example: theta = 0,
alpha = 0, a = 0, offset = 0, flip off, sigma = 1, mdh = 0. -/
def stdPrismaticExample : DHLink :=
  { defaultLink with sigma := 1 }

/-- C2: the transform first adjusts the joint variable by flip and
offset, takes st, ct, dEff from the adjusted variable or from theta and
d according to the joint type, and returns exactly the standard or
modified DH matrix; in particular the standard prismatic example record
at q = 3 yields the identity rotation and translation (0, 0, 3). -/
theorem transform_formula :
    (∀ (l : DHLink) (q : ℚ),
      A l q =
        (let sa := Real.sin (l.alpha : ℝ)
         let ca := Real.cos (l.alpha : ℝ)
         let qAdj : ℚ := if l.flip then -q + l.offset else q + l.offset
         let st := if l.sigma = 0 then Real.sin (qAdj : ℝ)
                   else Real.sin (l.theta : ℝ)
         let ct := if l.sigma = 0 then Real.cos (qAdj : ℝ)
                   else Real.cos (l.theta : ℝ)
         let dEff := if l.sigma = 0 then (l.d : ℝ) else (qAdj : ℝ)
         if l.mdh = 0 then
           ![![ct, -st * ca, st * sa, (l.a : ℝ) * ct],
             ![st, ct * ca, -ct * sa, (l.a : ℝ) * st],
             ![0, sa, ca, dEff],
             ![0, 0, 0, 1]]
         else
           ![![ct, -st, 0, (l.a : ℝ)],
             ![st * ca, ct * ca, -sa, -sa * dEff],
             ![st * sa, ct * sa, ca, ca * dEff],
             ![0, 0, 0, 1]])) ∧
    A stdPrismaticExample 3 =
      ![![1, 0, 0, 0], ![0, 1, 0, 0], ![0, 0, 1, 3], ![0, 0, 0, 1]] := by
  constructor
  · intro l q
    rfl
  · funext i j
    fin_cases i <;> fin_cases j <;>
      simp [A, stdPrismaticExample, defaultLink]

/-- C5: for a revolute record with flip set and zero offset, the
transform at q equals the transform of the unflipped record at -q. -/
theorem flip_semantics (l : DHLink) (q : ℚ)
    (hs : l.sigma = 0) (hf : l.flip = true) (ho : l.offset = 0) :
    A l q = A { l with flip := false } (-q) := by
  unfold A
  simp [hf, ho]

/-- A concrete flipped revolute record for the C5 witness. -/
def flippedRevolute : DHLink :=
  { defaultLink with flip := true, d := 1, a := 2, alpha := 3 }

/-- C5 witness: the flip equivalence evaluated on a concrete record. -/
theorem flip_semantics_witness :
    A flippedRevolute 1 = A { flippedRevolute with flip := false } (-1) :=
  flip_semantics flippedRevolute 1 rfl rfl rfl

/-- DHLink.islimit: true when the joint variable is below qlim[0] or
above qlim[1]. -/
def islimit (l : DHLink) (q : ℚ) : Bool :=
  if q < l.qlim.1 ∨ q > l.qlim.2 then true else false

/-- C9: islimit is true exactly when q is outside the closed interval
between the two limits, and it is false at the boundary values
themselves (the pair being ordered as min then max). -/
theorem islimit_iff (l : DHLink) (q : ℚ) (hord : l.qlim.1 ≤ l.qlim.2) :
    (islimit l q = true ↔ (q < l.qlim.1 ∨ q > l.qlim.2)) ∧
    islimit l l.qlim.1 = false ∧ islimit l l.qlim.2 = false := by
  refine ⟨?_, ?_, ?_⟩
  · simp [islimit]
  · simp [islimit]
    exact hord
  · simp [islimit]
    exact hord

/-- C9 witness: the limit check on a record with limits (0, 0) at the
boundary and outside. -/
theorem islimit_iff_witness :
    (islimit defaultLink 1 = true ↔ ((1 : ℚ) < 0 ∨ (1 : ℚ) > 0)) ∧
    islimit defaultLink 0 = false := by
  refine ⟨?_, ?_⟩
  · exact (islimit_iff defaultLink 1 (by norm_num [defaultLink])).1
  · exact (islimit_iff defaultLink 0 (by norm_num [defaultLink])).2.1

/-- theta setter: rejects a nonzero value on a revolute record
(sigma = 0); on success stores the new value.  An error result models a
raised exception, which leaves the record unchanged. -/
def set_theta (l : DHLink) (v : ℚ) : Except SetError DHLink :=
  if l.sigma = 0 ∧ v ≠ 0 then Except.error SetError.constraintViolation
  else Except.ok { l with theta := v }

/-- d setter: rejects a nonzero value on a prismatic record
(sigma nonzero); on success stores the new value. -/
def set_d (l : DHLink) (v : ℚ) : Except SetError DHLink :=
  if l.sigma ≠ 0 ∧ v ≠ 0 then Except.error SetError.constraintViolation
  else Except.ok { l with d := v }

/-- C3: on a revolute record any nonzero theta assignment fails with
ConstraintViolation and assigning 0 succeeds; on a prismatic record any
nonzero d assignment fails with ConstraintViolation and 0 succeeds.  A
failing setter returns only the error, so the stored field is
unchanged. -/
theorem constrained_setters (l : DHLink) :
    (l.sigma = 0 →
      (∀ v : ℚ, v ≠ 0 →
        set_theta l v = Except.error SetError.constraintViolation) ∧
      set_theta l 0 = Except.ok { l with theta := 0 }) ∧
    (l.sigma ≠ 0 →
      (∀ v : ℚ, v ≠ 0 →
        set_d l v = Except.error SetError.constraintViolation) ∧
      set_d l 0 = Except.ok { l with d := 0 }) := by
  refine ⟨fun hs => ⟨fun v hv => ?_, ?_⟩, fun hs => ⟨fun v hv => ?_, ?_⟩⟩
  · simp [set_theta, hs, hv]
  · simp [set_theta]
  · simp [set_d, hs, hv]
  · simp [set_d]

/-- C3 witness: the theta and d rules evaluated on concrete revolute
and prismatic records. -/
theorem constrained_setters_witness :
    set_theta defaultLink 1 = Except.error SetError.constraintViolation ∧
    set_theta defaultLink 0 = Except.ok { defaultLink with theta := 0 } ∧
    set_d stdPrismaticExample 1 = Except.error SetError.constraintViolation ∧
    set_d stdPrismaticExample 0 = Except.ok { stdPrismaticExample with d := 0 } :=
  ⟨((constrained_setters defaultLink).1 rfl).1 1 one_ne_zero,
   ((constrained_setters defaultLink).1 rfl).2,
   ((constrained_setters stdPrismaticExample).2 (by decide)).1 1 one_ne_zero,
   ((constrained_setters stdPrismaticExample).2 (by decide)).2⟩

/-- An array argument to a setter: either a two-dimensional array given
by its rows, or a one-dimensional vector. -/
inductive ArrayInput where
  | mat (rows : List (List ℚ))
  | vec (xs : List ℚ)

/-- The symmetry tolerance 1e-8 of the inertia setter. -/
def symTol : ℚ := 1 / 100000000

/-- Whether a two-dimensional array has shape (3, 3). -/
def isMat33 (rows : List (List ℚ)) : Bool :=
  rows.length = 3 && rows.all (fun row => row.length = 3)

/-- Read a 3x3 array of rows as a function matrix. -/
def mat33 (rows : List (List ℚ)) : Fin 3 → Fin 3 → ℚ :=
  fun i j => (rows.getD i.val []).getD j.val 0

/-- Reshape a 9-vector into a 3x3 matrix, row major. -/
def reshape9 (xs : List ℚ) : Fin 3 → Fin 3 → ℚ :=
  fun i j => xs.getD (3 * i.val + j.val) 0

/-- The symmetric matrix built from a 6-vector
[Ixx, Iyy, Izz, Ixy, Iyz, Ixz]. -/
def sym6 (xs : List ℚ) : Fin 3 → Fin 3 → ℚ :=
  ![![xs.getD 0 0, xs.getD 3 0, xs.getD 5 0],
    ![xs.getD 3 0, xs.getD 1 0, xs.getD 4 0],
    ![xs.getD 5 0, xs.getD 4 0, xs.getD 2 0]]

/-- The diagonal matrix built from a 3-vector of moments. -/
def diag3 (xs : List ℚ) : Fin 3 → Fin 3 → ℚ :=
  fun i j => if i = j then xs.getD i.val 0 else 0

/-- The asymmetry test of the inertia setter: some entry of M - M^T
exceeds the tolerance in absolute value. -/
def asymCheck (M : Fin 3 → Fin 3 → ℚ) : Bool :=
  decide (∃ i j, |M i j - M j i| > symTol)

/-- Whether an array input has one of the four shapes the inertia
setter accepts: a (3,3) matrix, or a vector of length 9, 6 or 3. -/
def acceptedInertiaShape : ArrayInput → Bool
  | ArrayInput.mat rows => isMat33 rows
  | ArrayInput.vec xs =>
      decide (xs.length = 9) || decide (xs.length = 6) ||
        decide (xs.length = 3)

/-- Inertia setter: a (3,3) matrix or a 9-vector reshaped to (3,3) is
checked for symmetry within tolerance and rejected with SymmetryError
otherwise; a 6-vector fills moments and products of inertia; a 3-vector
becomes a diagonal matrix; anything else is rejected with
ShapeError. -/
def set_I (l : DHLink) (inp : ArrayInput) : Except SetError DHLink :=
  match inp with
  | ArrayInput.mat rows =>
      if isMat33 rows then
        if asymCheck (mat33 rows) then Except.error SetError.symmetryError
        else Except.ok { l with I := mat33 rows }
      else Except.error SetError.shapeError
  | ArrayInput.vec xs =>
      if xs.length = 9 then
        if asymCheck (reshape9 xs) then Except.error SetError.symmetryError
        else Except.ok { l with I := reshape9 xs }
      else if xs.length = 6 then Except.ok { l with I := sym6 xs }
      else if xs.length = 3 then Except.ok { l with I := diag3 xs }
      else Except.error SetError.shapeError

lemma sym6_symm (xs : List ℚ) (i j : Fin 3) : sym6 xs i j = sym6 xs j i := by
  fin_cases i <;> fin_cases j <;> rfl

lemma diag3_symm (xs : List ℚ) (i j : Fin 3) : diag3 xs i j = diag3 xs j i := by
  fin_cases i <;> fin_cases j <;> rfl

lemma symTol_nonneg : (0 : ℚ) ≤ symTol := by norm_num [symTol]

/-- C4: every inertia matrix stored by a successful assignment is
symmetric within the 1e-8 tolerance, exactly symmetric when it came
from a 6-vector or a 3-vector; a (3,3) matrix or a 9-vector whose
asymmetry exceeds the tolerance somewhere is rejected with
SymmetryError, and an input of none of the four accepted shapes is
rejected with ShapeError.  Error results carry no record, so the
stored inertia is unchanged on failure. -/
theorem inertia_setter (l : DHLink) (inp : ArrayInput) :
    (∀ l', set_I l inp = Except.ok l' →
      ∀ i j, |l'.I i j - l'.I j i| ≤ symTol) ∧
    (∀ xs, inp = ArrayInput.vec xs → (xs.length = 6 ∨ xs.length = 3) →
      ∀ l', set_I l inp = Except.ok l' → ∀ i j, l'.I i j = l'.I j i) ∧
    (∀ rows, inp = ArrayInput.mat rows → isMat33 rows = true →
      asymCheck (mat33 rows) = true →
      set_I l inp = Except.error SetError.symmetryError) ∧
    (∀ xs, inp = ArrayInput.vec xs → xs.length = 9 →
      asymCheck (reshape9 xs) = true →
      set_I l inp = Except.error SetError.symmetryError) ∧
    (acceptedInertiaShape inp = false →
      set_I l inp = Except.error SetError.shapeError) := by
  refine ⟨?_, ?_, ?_, ?_, ?_⟩
  · intro l' hok i j
    cases inp with
    | mat rows =>
        simp only [set_I] at hok
        split_ifs at hok with h1 h2
        simp only [Except.ok.injEq] at hok
        subst hok
        simp only [asymCheck, decide_eq_true_eq, not_exists, not_lt] at h2
        simpa using h2 i j
    | vec xs =>
        simp only [set_I] at hok
        split_ifs at hok with h1 h2 h3 h4 <;>
          simp only [Except.ok.injEq] at hok <;> subst hok
        · simp only [asymCheck, decide_eq_true_eq, not_exists, not_lt] at h2
          simpa using h2 i j
        · have := sym6_symm xs i j
          simp [this, symTol_nonneg]
        · have := diag3_symm xs i j
          simp [this, symTol_nonneg]
  · intro xs hinp hlen l' hok i j
    subst hinp
    rcases hlen with h6 | h3
    · simp only [set_I, h6] at hok
      norm_num at hok
      subst hok
      exact sym6_symm xs i j
    · simp only [set_I, h3] at hok
      norm_num at hok
      subst hok
      exact diag3_symm xs i j
  · intro rows hinp hshape hasym
    subst hinp
    simp [set_I, hshape, hasym]
  · intro xs hinp hlen hasym
    subst hinp
    simp [set_I, hlen, hasym]
  · intro hacc
    cases inp with
    | mat rows =>
        simp only [acceptedInertiaShape, Bool.not_eq_true] at hacc
        simp [set_I, hacc]
    | vec xs =>
        simp only [acceptedInertiaShape, Bool.or_eq_false_iff,
          decide_eq_false_iff_not] at hacc
        simp [set_I, hacc.1.1, hacc.1.2, hacc.2]

/-- C4 witness: the inertia rules evaluated on concrete inputs: an
asymmetric (3,3) matrix is rejected with SymmetryError, a 2-vector is
rejected with ShapeError, and an assignment from a concrete 3-vector
stores an exactly symmetric matrix. -/
theorem inertia_setter_witness :
    set_I defaultLink (ArrayInput.mat [[0, 1, 0], [0, 0, 0], [0, 0, 0]]) =
      Except.error SetError.symmetryError ∧
    set_I defaultLink (ArrayInput.vec [1, 2]) =
      Except.error SetError.shapeError ∧
    ({ defaultLink with I := diag3 [1, 2, 3] } : DHLink).I 0 1 =
      ({ defaultLink with I := diag3 [1, 2, 3] } : DHLink).I 1 0 :=
  ⟨(inertia_setter defaultLink
      (ArrayInput.mat [[0, 1, 0], [0, 0, 0], [0, 0, 0]])).2.2.1
      [[0, 1, 0], [0, 0, 0], [0, 0, 0]] rfl (by decide)
      (by
        rw [asymCheck, decide_eq_true_eq]
        exact ⟨0, 1, by norm_num [mat33, symTol]⟩),
   (inertia_setter defaultLink (ArrayInput.vec [1, 2])).2.2.2.2 (by decide),
   (inertia_setter defaultLink (ArrayInput.vec [1, 2, 3])).2.1
      [1, 2, 3] rfl (Or.inr rfl) { defaultLink with I := diag3 [1, 2, 3] }
      rfl 0 1⟩

/-- C6: setting the inertia from a 6-vector [Ixx, Iyy, Izz, Ixy, Iyz,
Ixz] succeeds, and the stored 3x3 matrix has diagonal (Ixx, Iyy, Izz),
entries (0,1) and (1,0) equal to Ixy, entries (1,2) and (2,1) equal to
Iyz, and entries (0,2) and (2,0) equal to Ixz. -/
theorem inertia_sixvec_roundtrip (l : DHLink) (ixx iyy izz ixy iyz ixz : ℚ) :
    ∃ l', set_I l (ArrayInput.vec [ixx, iyy, izz, ixy, iyz, ixz]) =
        Except.ok l' ∧
      l'.I 0 0 = ixx ∧ l'.I 1 1 = iyy ∧ l'.I 2 2 = izz ∧
      l'.I 0 1 = ixy ∧ l'.I 1 0 = ixy ∧
      l'.I 1 2 = iyz ∧ l'.I 2 1 = iyz ∧
      l'.I 0 2 = ixz ∧ l'.I 2 0 = ixz := by
  refine ⟨{ l with I := sym6 [ixx, iyy, izz, ixy, iyz, ixz] }, ?_,
    rfl, rfl, rfl, rfl, rfl, rfl, rfl, rfl, rfl⟩
  simp [set_I]

/-- Tc setter: a single scalar F (a 1-vector) is expanded to the
symmetric pair (F, -F); a 2-vector is stored as the asymmetric pair as
given; any other length is rejected with ShapeError. -/
def set_Tc (l : DHLink) (xs : List ℚ) : Except SetError DHLink :=
  if xs.length = 1 then
    Except.ok { l with Tc := (xs.getD 0 0, -xs.getD 0 0) }
  else if xs.length = 2 then
    Except.ok { l with Tc := (xs.getD 0 0, xs.getD 1 0) }
  else Except.error SetError.shapeError

/-- C7: setting Coulomb friction from a single scalar F stores (F, -F),
in particular 5 gives (5, -5); a 2-element input is stored exactly as
given; any other length fails with ShapeError, and the error result
carries no record so the stored pair is unchanged. -/
theorem coulomb_setter (l : DHLink) :
    (∀ F : ℚ, set_Tc l [F] = Except.ok { l with Tc := (F, -F) }) ∧
    set_Tc l [5] = Except.ok { l with Tc := (5, -5) } ∧
    (∀ x y : ℚ, set_Tc l [x, y] = Except.ok { l with Tc := (x, y) }) ∧
    (∀ xs : List ℚ, xs.length ≠ 1 → xs.length ≠ 2 →
      set_Tc l xs = Except.error SetError.shapeError) := by
  refine ⟨fun F => rfl, rfl, fun x y => rfl, fun xs h1 h2 => ?_⟩
  simp [set_Tc, h1, h2]

/-- C7 witness: the Coulomb friction rules evaluated on the default
record at the scalar 5, a concrete pair, and an empty input. -/
theorem coulomb_setter_witness :
    set_Tc defaultLink [5] = Except.ok { defaultLink with Tc := (5, -5) } ∧
    set_Tc defaultLink [1, -2] =
      Except.ok { defaultLink with Tc := (1, -2) } ∧
    set_Tc defaultLink [] = Except.error SetError.shapeError :=
  ⟨(coulomb_setter defaultLink).2.1,
   (coulomb_setter defaultLink).2.2.1 1 (-2),
   (coulomb_setter defaultLink).2.2.2 [] (by decide) (by decide)⟩

/-- DHLink.nofriction: returns a copy of the record; when the viscous
flag is set the copy's B is set to 0 (through the B setter, which
accepts the scalar 0), and when the coulomb flag is set the copy's Tc
is set through the Tc setter from [0, 0], which stores (0, 0).  The
original record is not modified. -/
def nofriction (l : DHLink) (coulomb : Bool) (viscous : Bool) : DHLink :=
  let link := l
  let link := if viscous then { link with B := 0 } else link
  let link := if coulomb then { link with Tc := (0, 0) } else link
  link

/-- C8: applying nofriction twice with the same flags gives the same
record as applying it once (so in particular the same B and Tc), and
with the default flags (coulomb true, viscous false) the result is the
record with only Tc forced to (0, 0) and B kept.  The operation acts
on a copy, so the original record's fields are untouched. -/
theorem nofriction_idempotent (l : DHLink) (coulomb viscous : Bool) :
    nofriction (nofriction l coulomb viscous) coulomb viscous =
      nofriction l coulomb viscous ∧
    nofriction l true false = { l with Tc := (0, 0) } ∧
    (nofriction l true false).B = l.B := by
  cases coulomb <;> cases viscous <;>
    exact ⟨rfl, rfl, rfl⟩

/-- alpha setter: always succeeds. -/
def set_alpha (l : DHLink) (v : ℚ) : Except SetError DHLink :=
  Except.ok { l with alpha := v }

/-- a setter: always succeeds. -/
def set_a (l : DHLink) (v : ℚ) : Except SetError DHLink :=
  Except.ok { l with a := v }

/-- sigma setter: always succeeds. -/
def set_sigma (l : DHLink) (n : ℕ) : Except SetError DHLink :=
  Except.ok { l with sigma := n }

/-- mdh setter: stores the flag converted to an integer. -/
def set_mdh (l : DHLink) (b : Bool) : Except SetError DHLink :=
  Except.ok { l with mdh := if b then 1 else 0 }

/-- m setter: always succeeds. -/
def set_m (l : DHLink) (v : ℚ) : Except SetError DHLink :=
  Except.ok { l with m := v }

/-- r setter: requires a 3-vector. -/
def set_r (l : DHLink) (xs : List ℚ) : Except SetError DHLink :=
  if xs.length = 3 then Except.ok { l with r := fun i => xs.getD i.val 0 }
  else Except.error SetError.shapeError

/-- Jm setter: always succeeds. -/
def set_Jm (l : DHLink) (v : ℚ) : Except SetError DHLink :=
  Except.ok { l with Jm := v }

/-- B setter: accepts a scalar and rejects an array with TypeError. -/
def set_B (l : DHLink) (v : ℚ ⊕ List ℚ) : Except SetError DHLink :=
  match v with
  | Sum.inl b => Except.ok { l with B := b }
  | Sum.inr _ => Except.error SetError.typeError

/-- G setter: always succeeds. -/
def set_G (l : DHLink) (v : ℚ) : Except SetError DHLink :=
  Except.ok { l with G := v }

/-- The observable events of one setter call on a record that may have
an owning robot: the dynchanged notification to the owner, a
validation failure, or the field assignment. -/
inductive SetterEv where
  | dynchanged
  | validationFailed (e : SetError)
  | fieldAssigned
deriving DecidableEq, BEq

/-- The listen-dyn wrapper around a setter: when the record has an
owner, the owner's dynchanged callback is invoked first, before the
wrapped setter runs its validation and assignment.  The result pairs
the event trace with the setter outcome. -/
def dynSetter {α : Type} (hasOwner : Bool)
    (f : DHLink → α → Except SetError DHLink)
    (l : DHLink) (x : α) : List SetterEv × Except SetError DHLink :=
  let pre := if hasOwner then [SetterEv.dynchanged] else []
  match f l x with
  | Except.ok l' => (pre ++ [SetterEv.fieldAssigned], Except.ok l')
  | Except.error e => (pre ++ [SetterEv.validationFailed e], Except.error e)

/-- A setter call notifies the owner exactly once, as the first event
of its trace. -/
def notifiesOnceFirst (p : List SetterEv × Except SetError DHLink) : Prop :=
  p.1.head? = some SetterEv.dynchanged ∧
  p.1.count SetterEv.dynchanged = 1

lemma dynSetter_notifies {α : Type} (f : DHLink → α → Except SetError DHLink)
    (l : DHLink) (x : α) : notifiesOnceFirst (dynSetter true f l x) := by
  unfold dynSetter notifiesOnceFirst
  cases h : f l x with
  | ok l' => exact ⟨rfl, rfl⟩
  | error e => exact ⟨rfl, rfl⟩

/-- The wrapped d setter. -/
def set_d_dyn (hasOwner : Bool) := dynSetter hasOwner set_d

/-- The wrapped alpha setter. -/
def set_alpha_dyn (hasOwner : Bool) := dynSetter hasOwner set_alpha

/-- The wrapped theta setter. -/
def set_theta_dyn (hasOwner : Bool) := dynSetter hasOwner set_theta

/-- The wrapped a setter. -/
def set_a_dyn (hasOwner : Bool) := dynSetter hasOwner set_a

/-- The wrapped sigma setter. -/
def set_sigma_dyn (hasOwner : Bool) := dynSetter hasOwner set_sigma

/-- The wrapped mdh setter. -/
def set_mdh_dyn (hasOwner : Bool) := dynSetter hasOwner set_mdh

/-- The wrapped m setter. -/
def set_m_dyn (hasOwner : Bool) := dynSetter hasOwner set_m

/-- The wrapped r setter. -/
def set_r_dyn (hasOwner : Bool) := dynSetter hasOwner set_r

/-- The wrapped inertia setter. -/
def set_I_dyn (hasOwner : Bool) := dynSetter hasOwner set_I

/-- The wrapped Jm setter. -/
def set_Jm_dyn (hasOwner : Bool) := dynSetter hasOwner set_Jm

/-- The wrapped B setter. -/
def set_B_dyn (hasOwner : Bool) := dynSetter hasOwner set_B

/-- The wrapped Tc setter. -/
def set_Tc_dyn (hasOwner : Bool) := dynSetter hasOwner set_Tc

/-- The wrapped G setter. -/
def set_G_dyn (hasOwner : Bool) := dynSetter hasOwner set_G

/-- C10: on a record with an owner, each of the thirteen
dynamics-affecting setters (d, alpha, theta, a, sigma, mdh, m, r, I,
Jm, B, Tc, G) issues the dynchanged notification as the very first
event of the call, before any validation, and exactly once — for every
input, including inputs on which the assignment then fails and leaves
the field unchanged. -/
theorem dyn_notification (l : DHLink) (v : ℚ) (n : ℕ) (b : Bool)
    (xs : List ℚ) (inp : ArrayInput) (s : ℚ ⊕ List ℚ) :
    notifiesOnceFirst (set_d_dyn true l v) ∧
    notifiesOnceFirst (set_alpha_dyn true l v) ∧
    notifiesOnceFirst (set_theta_dyn true l v) ∧
    notifiesOnceFirst (set_a_dyn true l v) ∧
    notifiesOnceFirst (set_sigma_dyn true l n) ∧
    notifiesOnceFirst (set_mdh_dyn true l b) ∧
    notifiesOnceFirst (set_m_dyn true l v) ∧
    notifiesOnceFirst (set_r_dyn true l xs) ∧
    notifiesOnceFirst (set_I_dyn true l inp) ∧
    notifiesOnceFirst (set_Jm_dyn true l v) ∧
    notifiesOnceFirst (set_B_dyn true l s) ∧
    notifiesOnceFirst (set_Tc_dyn true l xs) ∧
    notifiesOnceFirst (set_G_dyn true l v) :=
  ⟨dynSetter_notifies set_d l v, dynSetter_notifies set_alpha l v,
   dynSetter_notifies set_theta l v, dynSetter_notifies set_a l v,
   dynSetter_notifies set_sigma l n, dynSetter_notifies set_mdh l b,
   dynSetter_notifies set_m l v, dynSetter_notifies set_r l xs,
   dynSetter_notifies set_I l inp, dynSetter_notifies set_Jm l v,
   dynSetter_notifies set_B l s, dynSetter_notifies set_Tc l xs,
   dynSetter_notifies set_G l v⟩

end DH
